import Mathlib

/-!
Shallow embedding of the Boundary server command (package `server`):
the configuration validation performed by `Command.Run`, the schema manager
guard (`connectSchemaManager` / `ensureManagerConnection`), the signal
dispatch loop (`WaitForInterrupt` / `Reload`), and the start/shutdown
sequencing of the controller and worker subsystems.
-/

deriving instance DecidableEq for Except

namespace BoundaryServer

/-- Result of Go `net.SplitHostPort`: a host/port pair, the distinguished
missing-port-in-address error, or any other parse error. -/
inductive SplitResult where
  | ok (host port : String)
  | missingPort
  | otherErr (msg : String)
  deriving DecidableEq

/-- The two predicates of a parsed `net.IP` that the server code consults. -/
structure IPProps where
  isUnspecified : Bool
  isMulticast : Bool
  deriving DecidableEq

/-- Abstraction of the Go `net` package functions called by `Run`; theorems
quantify over every model, and concrete witnesses use `netSimple` below. -/
structure NetModel where
  splitHostPort : String → SplitResult
  parseIP : String → Option IPProps

/-- Splits a character list at every occurrence of the separator, keeping
empty groups, like Go `strings.Split`. -/
def splitOnChar (sep : Char) : List Char → List (List Char)
  | [] => [[]]
  | c :: rest =>
      let r := splitOnChar sep rest
      if c = sep then [] :: r
      else match r with
        | [] => [[c]]
        | g :: gs => (c :: g) :: gs

/-- Decimal value of a digit list, high digit first. -/
def digitsVal (cs : List Char) : Nat :=
  cs.foldl (fun n c => n * 10 + (c.toNat - 48)) 0

/-- Decimal IPv4 field: nonempty, all digits, value at most 255. -/
def parseIPv4Field (cs : List Char) : Option Nat :=
  if cs.isEmpty then none
  else if cs.all Char.isDigit then
    if digitsVal cs ≤ 255 then some (digitsVal cs) else none
  else none

/-- Model of `net.ParseIP` restricted to dotted-quad IPv4 literals; any other
string (IPv6 literals are never used in the concrete inputs below) is not an
IP. An IPv4 address is unspecified iff it is 0.0.0.0 and multicast iff its
first octet lies in 224..239. -/
def goParseIP (s : String) : Option IPProps :=
  match (splitOnChar '.' s.data).mapM parseIPv4Field with
  | some [a, b, c, d] =>
      some ⟨decide (a = 0 ∧ b = 0 ∧ c = 0 ∧ d = 0), decide (224 ≤ a ∧ a ≤ 239)⟩
  | _ => none

/-- Model of `net.SplitHostPort` restricted to bracket-free addresses: no
colon yields the missing-port error, one colon splits host from port, more
than one colon is the too-many-colons error. -/
def goSplitHostPort (s : String) : SplitResult :=
  match splitOnChar ':' s.data with
  | [] => SplitResult.missingPort
  | [_] => SplitResult.missingPort
  | [h, p] => SplitResult.ok ⟨h⟩ ⟨p⟩
  | _ => SplitResult.otherErr "too many colons in address"

/-- Concrete net model used to evaluate the validation on concrete inputs. -/
def netSimple : NetModel :=
  { splitHostPort := goSplitHostPort, parseIP := goParseIP }

/-- A configured listener: its purpose list and its address. -/
structure Listener where
  purpose : List String
  address : String
  deriving DecidableEq

/-- The part of the controller config block that `Run` validation reads. -/
structure ControllerCfg where
  publicClusterAddr : String
  deriving DecidableEq

/-- The part of the worker config block that `Run` validation reads. -/
structure WorkerCfg where
  controllers : List String
  deriving DecidableEq

/-- The part of the loaded config that `Run` validation reads. -/
structure Config where
  listeners : List Listener
  controller : Option ControllerCfg
  worker : Option WorkerCfg
  deriving DecidableEq

/-- Every distinct validation failure site in `Run` (each is a `c.UI.Error`
followed by `return 1` in the source). -/
inductive RunErr where
  | listenerNoPurpose
  | listenerMultiPurpose
  | listenerUnknownPurpose (p : String)
  | controllerNoApi
  | controllerNoCluster
  | workerNoProxy
  | combinedUpstreamMismatch
  | invalidControllerAddress (a : String)
  | controllerAddrUnspecified (a : String)
  | controllerAddrMulticast (a : String)
  | setupListenersFailed
  | setupWorkerPublicAddrFailed
  | invalidClusterListenerAddress (a : String)
  | clusterUnspecifiedNeedsPublic
  | setupControllerPublicClusterAddrFailed
  deriving DecidableEq

/-- Accumulator of the listener scan loop in `Run` (lines 186-216):
the last seen cluster address (defaulted when empty) and the two flags. -/
structure ScanAcc where
  clusterAddr : String
  foundApi : Bool
  foundProxy : Bool
  deriving DecidableEq

/-- One iteration of the listener scan: zero purposes and more than one
purpose are errors; `cluster` records the address (defaulting an empty
address to 127.0.0.1:9201), `api` and `proxy` set their flags, and any other
purpose is an error. -/
def scanListener (acc : ScanAcc) (l : Listener) : Except RunErr ScanAcc :=
  match l.purpose with
  | [] => Except.error RunErr.listenerNoPurpose
  | [p] =>
      if p = "cluster" then
        Except.ok { acc with clusterAddr := if l.address = "" then "127.0.0.1:9201" else l.address }
      else if p = "api" then Except.ok { acc with foundApi := true }
      else if p = "proxy" then Except.ok { acc with foundProxy := true }
      else Except.error (RunErr.listenerUnknownPurpose p)
  | _ => Except.error RunErr.listenerMultiPurpose

/-- The listener scan loop over the whole listener list. -/
def scanListeners (acc : ScanAcc) : List Listener → Except RunErr ScanAcc
  | [] => Except.ok acc
  | l :: rest =>
      match scanListener acc l with
      | Except.error e => Except.error e
      | Except.ok acc2 => scanListeners acc2 rest

/-- Listener topology checks of `Run` (lines 186-231): scan all listeners,
then require an api listener and a cluster listener when a controller block
is present, and a proxy listener when a worker block is present. -/
def topologyCheck (cfg : Config) : Except RunErr ScanAcc :=
  match scanListeners ⟨"", false, false⟩ cfg.listeners with
  | Except.error e => Except.error e
  | Except.ok acc =>
      if cfg.controller.isSome ∧ acc.foundApi = false then Except.error RunErr.controllerNoApi
      else if cfg.controller.isSome ∧ acc.clusterAddr = "" then Except.error RunErr.controllerNoCluster
      else if cfg.worker.isSome ∧ acc.foundProxy = false then Except.error RunErr.workerNoProxy
      else Except.ok acc

/-- Host part of an upstream entry, as computed in `Run`: a split host on
success, the whole entry when the port is missing, and none on any other
split error. -/
def hostOfAddr (nm : NetModel) (a : String) : Option String :=
  match nm.splitHostPort a with
  | SplitResult.ok h _ => some h
  | SplitResult.missingPort => some a
  | SplitResult.otherErr _ => none

/-- The best-effort DNS-name test of `Run` lines 247-259: the entry is
treated as a domain name when its host part exists and does not parse as an
IP; a split failure other than a missing port is not a domain name. -/
def upstreamIsDnsName (nm : NetModel) (a : String) : Bool :=
  match hostOfAddr nm a with
  | some h => (nm.parseIP h).isNone
  | none => false

/-- The combined controller-and-worker upstream check of `Run` lines 232-264.
An empty list is replaced by the public cluster address when set, else the
local cluster address. A single entry must equal the local cluster address,
or the nonempty public cluster address, or be a domain name. Any longer list
falls to the default branch and is rejected. -/
def combinedControllersCheck (nm : NetModel) (clusterAddr pubAddr : String)
    (cs : List String) : Except RunErr (List String) :=
  match cs with
  | [] => Except.ok [if pubAddr = "" then clusterAddr else pubAddr]
  | [a] =>
      if a = clusterAddr then Except.ok [a]
      else if pubAddr ≠ "" ∧ a = pubAddr then Except.ok [a]
      else if upstreamIsDnsName nm a then Except.ok [a]
      else Except.error RunErr.combinedUpstreamMismatch
  | _ :: _ :: _ => Except.error RunErr.combinedUpstreamMismatch

/-- The per-entry upstream address check of `Run` lines 266-290: a split
failure other than a missing port is an invalid address; a host parsing as
an unspecified IP, then as a multicast IP, is rejected; anything else
passes. -/
def checkUpstreamEntry (nm : NetModel) (a : String) : Except RunErr Unit :=
  match hostOfAddr nm a with
  | none => Except.error (RunErr.invalidControllerAddress a)
  | some h =>
      match nm.parseIP h with
      | none => Except.ok ()
      | some ip =>
          if ip.isUnspecified then Except.error (RunErr.controllerAddrUnspecified a)
          else if ip.isMulticast then Except.error (RunErr.controllerAddrMulticast a)
          else Except.ok ()

/-- The loop applying `checkUpstreamEntry` to every upstream entry. -/
def checkUpstreamList (nm : NetModel) : List String → Except RunErr Unit
  | [] => Except.ok ()
  | a :: rest =>
      match checkUpstreamEntry nm a with
      | Except.error e => Except.error e
      | Except.ok _ => checkUpstreamList nm rest

/-- The worker upstream stage of `Run` (lines 227-291, after the proxy
check): in combined mode the controllers list is normalized and checked
against the cluster address first; then every entry is address-checked. -/
def upstreamsStage (nm : NetModel) (acc : ScanAcc) (cfg : Config) :
    Except RunErr (List String) :=
  match cfg.worker with
  | none => Except.ok []
  | some w =>
      match (match cfg.controller with
             | some ctl => combinedControllersCheck nm acc.clusterAddr ctl.publicClusterAddr w.controllers
             | none => Except.ok w.controllers) with
      | Except.error e => Except.error e
      | Except.ok cs =>
          match checkUpstreamList nm cs with
          | Except.error e => Except.error e
          | Except.ok _ => Except.ok cs

/-- One cluster-purpose check of `Run` lines 305-328 for a single purpose
tag of a listener: only the `cluster` purpose is examined; a split failure
other than a missing port is an invalid cluster listener address; a host
parsing as an unspecified IP while `public_cluster_addr` is empty is
rejected. -/
def checkClusterPurpose (nm : NetModel) (pubAddr addr p : String) : Except RunErr Unit :=
  if p = "cluster" then
    match nm.splitHostPort addr with
    | SplitResult.otherErr _ => Except.error (RunErr.invalidClusterListenerAddress addr)
    | SplitResult.ok h _ =>
        match nm.parseIP h with
        | none => Except.ok ()
        | some ip =>
            if ip.isUnspecified ∧ pubAddr = "" then Except.error RunErr.clusterUnspecifiedNeedsPublic
            else Except.ok ()
    | SplitResult.missingPort =>
        match nm.parseIP addr with
        | none => Except.ok ()
        | some ip =>
            if ip.isUnspecified ∧ pubAddr = "" then Except.error RunErr.clusterUnspecifiedNeedsPublic
            else Except.ok ()
  else Except.ok ()

/-- The inner loop of `Run` lines 306-328 over the purposes of one listener. -/
def checkClusterPurposes (nm : NetModel) (pubAddr addr : String) : List String → Except RunErr Unit
  | [] => Except.ok ()
  | p :: rest =>
      match checkClusterPurpose nm pubAddr addr p with
      | Except.error e => Except.error e
      | Except.ok _ => checkClusterPurposes nm pubAddr addr rest

/-- The outer loop of `Run` lines 305-328 over all listeners. -/
def checkClusterListeners (nm : NetModel) (pubAddr : String) : List Listener → Except RunErr Unit
  | [] => Except.ok ()
  | l :: rest =>
      match checkClusterPurposes nm pubAddr l.address l.purpose with
      | Except.error e => Except.error e
      | Except.ok _ => checkClusterListeners nm pubAddr rest

/-- Outcomes of the external setup calls interleaved with the validation
(`SetupListeners`, `SetupWorkerPublicAddress`,
`SetupControllerPublicClusterAddress`); each failure makes `Run` return 1. -/
structure Ext where
  setupListenersOk : Bool
  setupWorkerPublicAddrOk : Bool
  setupControllerPubAddrOk : Bool
  deriving DecidableEq

/-- Public cluster address of the config, empty when no controller block. -/
def pubClusterAddr (cfg : Config) : String :=
  match cfg.controller with
  | some ctl => ctl.publicClusterAddr
  | none => ""

/-- The whole validation phase of `Run` (lines 186-342 before the PID file),
in source order: listener topology, worker upstream checks, listener setup,
worker public address setup, the cluster-listener unspecified-address check,
and the controller public cluster address setup. Returns the scan result and
the (possibly normalized) upstream list. -/
def runValidate (nm : NetModel) (ext : Ext) (cfg : Config) :
    Except RunErr (ScanAcc × List String) :=
  match topologyCheck cfg with
  | Except.error e => Except.error e
  | Except.ok acc =>
      match upstreamsStage nm acc cfg with
      | Except.error e => Except.error e
      | Except.ok cs =>
          if ext.setupListenersOk = false then Except.error RunErr.setupListenersFailed
          else if cfg.worker.isSome ∧ ext.setupWorkerPublicAddrOk = false then
            Except.error RunErr.setupWorkerPublicAddrFailed
          else
            match (if cfg.controller.isSome then
                     checkClusterListeners nm (pubClusterAddr cfg) cfg.listeners
                   else Except.ok ()) with
            | Except.error e => Except.error e
            | Except.ok _ =>
                if cfg.controller.isSome ∧ ext.setupControllerPubAddrOk = false then
                  Except.error RunErr.setupControllerPublicClusterAddrFailed
                else Except.ok (acc, cs)

/-- Exit code of `Run` as far as the validation phase decides it: any
validation error makes `Run` return 1, otherwise `Run` continues. -/
def runValidateExit (nm : NetModel) (ext : Ext) (cfg : Config) : Option Nat :=
  match runValidate nm ext cfg with
  | Except.error _ => some 1
  | Except.ok _ => none

/-- The schema state snapshot returned by `sm.CurrentState`. -/
structure SchemaState where
  initializationStarted : Bool
  dirty : Bool
  binarySchemaVersion : Nat
  databaseSchemaVersion : Nat
  deriving DecidableEq

/-- Every distinct error returned by `connectSchemaManager`. -/
inductive SchemaErr where
  | newManagerFailed
  | sharedLockFailed
  | currentStateFailed
  | notInitialized
  | dirtyState
  | mustMigrate
  | binaryTooOld (dbVer : Nat)
  deriving DecidableEq

/-- The state checks of `connectSchemaManager` after the shared lock is held
(lines 639-652): not-initialized, then dirty, then binary newer than the
database, then binary older than the database, in that order. -/
def checkSchemaState (st : SchemaState) : Except SchemaErr Unit :=
  if st.initializationStarted = false then Except.error SchemaErr.notInitialized
  else if st.dirty = true then Except.error SchemaErr.dirtyState
  else if st.databaseSchemaVersion < st.binarySchemaVersion then Except.error SchemaErr.mustMigrate
  else if st.binarySchemaVersion < st.databaseSchemaVersion then
    Except.error (SchemaErr.binaryTooOld st.databaseSchemaVersion)
  else Except.ok ()

/-- `connectSchemaManager` (lines 613-656): construct the manager, take the
shared advisory lock, read the current state, then run the state checks. -/
def connectSchemaManager (newManagerOk sharedLockOk currentStateOk : Bool)
    (st : SchemaState) : Except SchemaErr Unit :=
  if newManagerOk = false then Except.error SchemaErr.newManagerFailed
  else if sharedLockOk = false then Except.error SchemaErr.sharedLockFailed
  else if currentStateOk = false then Except.error SchemaErr.currentStateFailed
  else checkSchemaState st

/-- How `Run` surfaces a `connectSchemaManager` error (lines 359-362): any
error becomes exit code 1. -/
def runSchemaGate (newManagerOk sharedLockOk currentStateOk : Bool)
    (st : SchemaState) : Except Nat Unit :=
  match connectSchemaManager newManagerOk sharedLockOk currentStateOk st with
  | Except.error _ => Except.error 1
  | Except.ok _ => Except.ok ()

/-- Observable outcome of one iteration of the `ensureManagerConnection`
loop: loop again, return after invoking the global cancel, or return
without cancelling. -/
inductive LivenessOutcome where
  | keepLooping
  | cancelAndReturn
  | returnNoCancel
  deriving DecidableEq

/-- Environment of one iteration of the `ensureManagerConnection` loop:
whether the ping succeeds, whether the root context is already done at the
ping check, whether a fresh manager can be constructed, whether the fresh
shared lock succeeds, and which branch of the final select fires. -/
structure LivenessTick where
  pingOk : Bool
  ctxDone : Bool
  newManagerOk : Bool
  relockOk : Bool
  ctxDoneAtSelect : Bool
  deriving DecidableEq

/-- Result of one iteration: its outcome, how many recovery attempts were
made, and whether the global cancel function was invoked. -/
structure TickResult where
  outcome : LivenessOutcome
  recoveryAttempts : Nat
  cancelled : Bool
  deriving DecidableEq

/-- One iteration of the `ensureManagerConnection` loop body (lines 675-701):
when the ping fails with the context still alive, one recovery is attempted
(new manager, then fresh shared lock); a failure of either step cancels and
returns, success continues the loop. Otherwise the select either continues
on a tick or returns without cancelling when the context is done. -/
def ensureManagerConnectionStep (t : LivenessTick) : TickResult :=
  if t.pingOk = false ∧ t.ctxDone = false then
    if t.newManagerOk = false then ⟨LivenessOutcome.cancelAndReturn, 1, true⟩
    else if t.relockOk = true then ⟨LivenessOutcome.keepLooping, 1, false⟩
    else ⟨LivenessOutcome.cancelAndReturn, 1, true⟩
  else
    if t.ctxDoneAtSelect = true then ⟨LivenessOutcome.returnNoCancel, 0, false⟩
    else ⟨LivenessOutcome.keepLooping, 0, false⟩

/-- Shutdown calls issued by the context-done branch of `WaitForInterrupt`. -/
inductive SrvAction where
  | shutdownWorker (drain : Bool)
  | shutdownController (waitForWorker : Bool)
  deriving DecidableEq

/-- Result of the context-done branch: the ordered shutdown calls, the loop
flag, and the return code of `WaitForInterrupt` once the loop exits. -/
structure ShutdownDispatch where
  actions : List SrvAction
  shutdownTriggered : Bool
  returnCode : Nat
  deriving DecidableEq

/-- The context-done branch of `WaitForInterrupt` (lines 506-521): shut the
worker down first when a worker block is configured, then the controller
when a controller block is configured, passing whether a worker block is
configured as `waitForWorker`; then the loop exits and 0 is returned. -/
def ctxDoneDispatch (hasWorker hasController : Bool) : ShutdownDispatch :=
  { actions :=
      (if hasWorker then [SrvAction.shutdownWorker false] else []) ++
      (if hasController then [SrvAction.shutdownController hasWorker] else []),
    shutdownTriggered := true,
    returnCode := 0 }

/-- The dynamic log levels of hclog that the reload path can set. -/
inductive HLevel where
  | trace
  | debug
  | info
  | warn
  | error
  deriving DecidableEq

/-- Model of Go `strings.TrimSpace`: drop whitespace from both ends. -/
def trimStr (s : String) : String :=
  ⟨((s.data.dropWhile Char.isWhitespace).reverse.dropWhile Char.isWhitespace).reverse⟩

/-- Model of Go `strings.ToLower` for the ASCII level names used here. -/
def toLowerStr (s : String) : String :=
  ⟨s.data.map Char.toLower⟩

/-- The log level switch of the SIGHUP branch (lines 547-565): the level
string is whitespace-trimmed and lowercased, then matched against trace,
debug, notice/info/empty, warn/warning and err/error; anything else is
unknown. -/
def parseLogLevel (s : String) : Option HLevel :=
  let t := toLowerStr (trimStr s)
  if t = "trace" then some HLevel.trace
  else if t = "debug" then some HLevel.debug
  else if t = "notice" ∨ t = "info" ∨ t = "" then some HLevel.info
  else if t = "warn" ∨ t = "warning" then some HLevel.warn
  else if t = "err" ∨ t = "error" then some HLevel.error
  else none

/-- Level table as the claim words it: the level is matched
case-insensitively against trace, debug, notice/info (both info),
warn/warning and err/error, with no other string recognized. Modelled from
the spec for comparison with `parseLogLevel`. -/
def claimLevelMatch (s : String) : Option HLevel :=
  let t := toLowerStr s
  if t = "trace" then some HLevel.trace
  else if t = "debug" then some HLevel.debug
  else if t = "notice" ∨ t = "info" then some HLevel.info
  else if t = "warn" ∨ t = "warning" then some HLevel.warn
  else if t = "err" ∨ t = "error" then some HLevel.error
  else none

/-- Environment of one SIGHUP dispatch: the config flag emptiness, whether
the reload parse succeeds and finds a config, the new log level string, and
the registered reload functions keyed by name (a `none` entry is a nil
function; an error entry is the error it returns). -/
structure SighupEnv where
  flagConfigEmpty : Bool
  loadOk : Bool
  confFound : Bool
  logLevel : String
  reloadFuncs : List (String × List (Option (Except String Unit)))

/-- Result of one SIGHUP dispatch: the level installed by `SetLevel` if any,
whether an unknown level was logged, the aggregated listener reload errors,
and whether the dispatch loop keeps running. -/
structure SighupResult where
  levelSet : Option HLevel
  unknownLevelLogged : Bool
  reloadErrors : List String
  shutdownTriggered : Bool
  deriving DecidableEq

/-- The error aggregation of `Reload` (lines 582-609): for every key with
prefix listener|, every non-nil function is invoked and its errors are
appended in order; other keys are ignored. -/
def reloadListenerErrors (funcs : List (String × List (Option (Except String Unit)))) :
    List String :=
  funcs.foldl (fun errs kf =>
    if "listener|".data.isPrefixOf kf.1.data then
      errs ++ kf.2.foldl (fun es f =>
        match f with
        | some (Except.error e) => es ++ [e]
        | _ => es) []
    else errs) []

/-- The SIGHUP branch of `WaitForInterrupt` (lines 523-570): with an empty
config flag, a failed load, or no config found, the level is untouched; a
nonempty level string is parsed and installed, an unknown one only logged;
in every case the listener reload functions then run and the loop keeps
running. -/
def sighupDispatch (e : SighupEnv) : SighupResult :=
  let lv :=
    if e.flagConfigEmpty = true then (none, false)
    else if e.loadOk = false then (none, false)
    else if e.confFound = false then (none, false)
    else if e.logLevel = "" then (none, false)
    else match parseLogLevel e.logLevel with
      | some l => (some l, false)
      | none => (none, true)
  { levelSet := lv.1,
    unknownLevelLogged := lv.2,
    reloadErrors := reloadListenerErrors e.reloadFuncs,
    shutdownTriggered := false }

/-- Calls made by the subsystem start phase of `Run` (lines 378-393),
including the rollback call `c.controller.Shutdown(false)` made when the
worker fails to start. -/
structure StartPhaseResult where
  controllerStarted : Bool
  workerStartAttempted : Bool
  controllerShutdownAttempted : Bool
  exitCode : Option Nat
  deriving DecidableEq

/-- The subsystem start phase of `Run` (lines 378-393): start the controller
when configured (failure returns 1); then start the worker when configured,
and on worker start failure call `c.controller.Shutdown(false)` — with no
check that a controller block was configured — and return 1. -/
def startPhase (hasController hasWorker controllerStartOk workerStartOk : Bool) :
    StartPhaseResult :=
  if hasController = true ∧ controllerStartOk = false then
    { controllerStarted := false, workerStartAttempted := false,
      controllerShutdownAttempted := false, exitCode := some 1 }
  else if hasWorker = true ∧ workerStartOk = false then
    { controllerStarted := hasController, workerStartAttempted := true,
      controllerShutdownAttempted := true, exitCode := some 1 }
  else
    { controllerStarted := hasController, workerStartAttempted := hasWorker,
      controllerShutdownAttempted := false, exitCode := none }

/-- The successive steps of `Run` on its happy path, in source order. -/
inductive RunEvent where
  | setupLogging
  | setupMetrics
  | setupKmses
  | listenerChecks
  | setupListeners
  | setupWorkerPublicAddress
  | clusterAddrCheck
  | setupControllerPublicClusterAddr
  | storePidFile
  | parseDbUrl
  | connectDb
  | connectSchemaManagerEv
  | verifyKmsSetup
  | printInfo
  | startControllerEv
  | startWorkerEv
  | waitForInterruptEv
  deriving DecidableEq

/-- The happy-path step sequence of `Run` (lines 142-395) for a config with
the given blocks: the PID file is stored at line 339, after all listener
work and before the controller database section at lines 344-367. -/
def runHappyTrace (hasController hasWorker : Bool) : List RunEvent :=
  [RunEvent.setupLogging, RunEvent.setupMetrics, RunEvent.setupKmses, RunEvent.listenerChecks,
   RunEvent.setupListeners] ++
  (if hasWorker then [RunEvent.setupWorkerPublicAddress] else []) ++
  (if hasController then [RunEvent.clusterAddrCheck, RunEvent.setupControllerPublicClusterAddr] else []) ++
  [RunEvent.storePidFile] ++
  (if hasController then
    [RunEvent.parseDbUrl, RunEvent.connectDb, RunEvent.connectSchemaManagerEv, RunEvent.verifyKmsSetup]
   else []) ++
  [RunEvent.printInfo] ++
  (if hasController then [RunEvent.startControllerEv] else []) ++
  (if hasWorker then [RunEvent.startWorkerEv] else []) ++
  [RunEvent.waitForInterruptEv]

/-- The errors contributed by a single reload-function list: each non-nil
function returning an error contributes that error, in order. -/
def listenerErrorsOf (fs : List (Option (Except String Unit))) : List String :=
  fs.filterMap (fun f =>
    match f with
    | some (Except.error e) => some e
    | _ => none)

/-- Combined config whose two worker upstream entries are both DNS names. -/
def cfgTwoDnsUpstreams : Config :=
  { listeners := [⟨["api"], "127.0.0.1:9200"⟩, ⟨["cluster"], "127.0.0.1:9201"⟩,
      ⟨["proxy"], "127.0.0.1:9202"⟩],
    controller := some ⟨""⟩,
    worker := some ⟨["a.example.com", "b.example.com"]⟩ }

/-- Combined config whose single worker upstream is an IP matching neither
the cluster address nor the (empty) public cluster address. -/
def cfgMismatchUpstream : Config :=
  { listeners := [⟨["api"], "127.0.0.1:9200"⟩, ⟨["cluster"], "127.0.0.1:9201"⟩,
      ⟨["proxy"], "127.0.0.1:9202"⟩],
    controller := some ⟨""⟩,
    worker := some ⟨["10.0.0.99:9201"]⟩ }

/-- Controller config with two api listeners and one cluster listener. -/
def cfgTwoApi : Config :=
  { listeners := [⟨["api"], "127.0.0.1:9200"⟩, ⟨["api"], "127.0.0.1:9300"⟩,
      ⟨["cluster"], "127.0.0.1:9201"⟩],
    controller := some ⟨""⟩,
    worker := none }

/-- Config with a listener declaring no purpose. -/
def cfgNoPurpose : Config :=
  { listeners := [⟨[], "127.0.0.1:9200"⟩],
    controller := none,
    worker := some ⟨[]⟩ }

/-- Controller config whose cluster listener binds the unspecified address
while no public cluster address is set. -/
def cfgUnspecCluster : Config :=
  { listeners := [⟨["api"], "127.0.0.1:9200"⟩, ⟨["cluster"], "0.0.0.0:9201"⟩],
    controller := some ⟨""⟩,
    worker := none }

/-- Worker-only config whose single upstream is a multicast IP address. -/
def cfgMulticastUpstream : Config :=
  { listeners := [⟨["proxy"], "127.0.0.1:9202"⟩],
    controller := none,
    worker := some ⟨["224.0.0.1:9201"]⟩ }

/-- Reload environment whose new log level is whitespace-only. -/
def envWhitespaceLevel : SighupEnv :=
  { flagConfigEmpty := false, loadOk := true, confFound := true,
    logLevel := " ", reloadFuncs := [] }

/-- Reload environment with a mixed-case level and two reload-function keys,
only one of which carries the listener prefix. -/
def envDebugLevel : SighupEnv :=
  { flagConfigEmpty := false, loadOk := true, confFound := true,
    logLevel := "DEBUG",
    reloadFuncs := [("listener|tcp", [some (Except.error "refresh failed"), none]),
      ("other", [some (Except.error "ignored")])] }

lemma scanListener_ok_purpose_length {acc acc2 : ScanAcc} {l : Listener}
    (h : scanListener acc l = Except.ok acc2) : l.purpose.length = 1 := by
  rcases hp : l.purpose with _ | ⟨p, _ | ⟨q, t⟩⟩ <;> simp only [scanListener, hp] at h
  · exact absurd h (by simp)
  · rfl
  · exact absurd h (by simp)

lemma scanListener_ok_cases {acc acc2 : ScanAcc} {l : Listener}
    (h : scanListener acc l = Except.ok acc2) :
    (l.purpose = ["cluster"] ∧
      acc2 = { acc with clusterAddr := if l.address = "" then "127.0.0.1:9201" else l.address }) ∨
    (l.purpose = ["api"] ∧ acc2 = { acc with foundApi := true }) ∨
    (l.purpose = ["proxy"] ∧ acc2 = { acc with foundProxy := true }) := by
  rcases hp : l.purpose with _ | ⟨p, _ | ⟨q, t⟩⟩ <;> simp only [scanListener, hp] at h
  · exact absurd h (by simp)
  · split_ifs at h with h1 h2 h3 <;> simp_all
  · exact absurd h (by simp)

lemma scanListeners_error_of_badPurpose {l : Listener} :
    ∀ (acc : ScanAcc) (ls : List Listener), l ∈ ls → l.purpose.length ≠ 1 →
      ∃ e, scanListeners acc ls = Except.error e := by
  intro acc ls
  induction ls generalizing acc with
  | nil => intro h; cases h
  | cons x rest ih =>
      intro hmem hlen
      cases hx : scanListener acc x with
      | error e => exact ⟨e, by simp [scanListeners, hx]⟩
      | ok acc2 =>
          rcases List.mem_cons.mp hmem with rfl | hmem2
          · exact absurd (scanListener_ok_purpose_length hx) hlen
          · obtain ⟨e, he⟩ := ih acc2 hmem2 hlen
            exact ⟨e, by simp [scanListeners, hx, he]⟩

lemma scanListeners_ok_purposes {acc acc2 : ScanAcc} {ls : List Listener}
    (h : scanListeners acc ls = Except.ok acc2) :
    ∀ l ∈ ls, l.purpose.length = 1 := by
  intro l hl
  by_contra hlen
  obtain ⟨e, he⟩ := scanListeners_error_of_badPurpose acc ls hl hlen
  rw [he] at h
  exact absurd h (by simp)

lemma scanListeners_foundApi {acc acc2 : ScanAcc} {ls : List Listener}
    (h : scanListeners acc ls = Except.ok acc2) (hApi : acc2.foundApi = true) :
    acc.foundApi = true ∨ ∃ l ∈ ls, l.purpose = ["api"] := by
  induction ls generalizing acc with
  | nil =>
      simp only [scanListeners] at h
      cases h
      exact Or.inl hApi
  | cons x rest ih =>
      cases hx : scanListener acc x with
      | error e => rw [scanListeners, hx] at h; exact absurd h (by simp)
      | ok accMid =>
          rw [scanListeners, hx] at h
          rcases ih h with hmid | ⟨l, hl, hp⟩
          · rcases scanListener_ok_cases hx with ⟨hp, rfl⟩ | ⟨hp, rfl⟩ | ⟨hp, rfl⟩
            · exact Or.inl hmid
            · exact Or.inr ⟨x, List.mem_cons_self x rest, hp⟩
            · exact Or.inl hmid
          · exact Or.inr ⟨l, List.mem_cons_of_mem x hl, hp⟩

lemma scanListeners_foundProxy {acc acc2 : ScanAcc} {ls : List Listener}
    (h : scanListeners acc ls = Except.ok acc2) (hP : acc2.foundProxy = true) :
    acc.foundProxy = true ∨ ∃ l ∈ ls, l.purpose = ["proxy"] := by
  induction ls generalizing acc with
  | nil =>
      simp only [scanListeners] at h
      cases h
      exact Or.inl hP
  | cons x rest ih =>
      cases hx : scanListener acc x with
      | error e => rw [scanListeners, hx] at h; exact absurd h (by simp)
      | ok accMid =>
          rw [scanListeners, hx] at h
          rcases ih h with hmid | ⟨l, hl, hp⟩
          · rcases scanListener_ok_cases hx with ⟨hp, rfl⟩ | ⟨hp, rfl⟩ | ⟨hp, rfl⟩
            · exact Or.inl hmid
            · exact Or.inl hmid
            · exact Or.inr ⟨x, List.mem_cons_self x rest, hp⟩
          · exact Or.inr ⟨l, List.mem_cons_of_mem x hl, hp⟩

lemma scanListeners_clusterAddr {acc acc2 : ScanAcc} {ls : List Listener}
    (h : scanListeners acc ls = Except.ok acc2) (hC : acc2.clusterAddr ≠ "") :
    acc.clusterAddr ≠ "" ∨ ∃ l ∈ ls, l.purpose = ["cluster"] := by
  induction ls generalizing acc with
  | nil =>
      simp only [scanListeners] at h
      cases h
      exact Or.inl hC
  | cons x rest ih =>
      cases hx : scanListener acc x with
      | error e => rw [scanListeners, hx] at h; exact absurd h (by simp)
      | ok accMid =>
          rw [scanListeners, hx] at h
          rcases ih h with hmid | ⟨l, hl, hp⟩
          · rcases scanListener_ok_cases hx with ⟨hp, rfl⟩ | ⟨hp, rfl⟩ | ⟨hp, rfl⟩
            · exact Or.inr ⟨x, List.mem_cons_self x rest, hp⟩
            · exact Or.inl hmid
            · exact Or.inl hmid
          · exact Or.inr ⟨l, List.mem_cons_of_mem x hl, hp⟩

lemma topologyCheck_ok_inv {cfg : Config} {acc : ScanAcc}
    (h : topologyCheck cfg = Except.ok acc) :
    scanListeners ⟨"", false, false⟩ cfg.listeners = Except.ok acc ∧
    (cfg.controller.isSome = true → acc.foundApi = true ∧ acc.clusterAddr ≠ "") ∧
    (cfg.worker.isSome = true → acc.foundProxy = true) := by
  unfold topologyCheck at h
  cases hs : scanListeners ⟨"", false, false⟩ cfg.listeners with
  | error e => rw [hs] at h; exact absurd h (by simp)
  | ok acc2 =>
      rw [hs] at h
      dsimp only at h
      split_ifs at h with h1 h2 h3 <;> simp at h
      obtain rfl : acc2 = acc := h
      push_neg at h1 h2 h3
      refine ⟨rfl, ?_, ?_⟩
      · intro hc
        refine ⟨?_, h2 hc⟩
        rcases Bool.eq_false_or_eq_true acc2.foundApi with hf | hf
        · exact hf
        · exact absurd hf (h1 hc)
      · intro hw
        rcases Bool.eq_false_or_eq_true acc2.foundProxy with hf | hf
        · exact hf
        · exact absurd hf (h3 hw)

lemma topologyCheck_error_of_badPurpose {cfg : Config} {l : Listener}
    (hl : l ∈ cfg.listeners) (hlen : l.purpose.length ≠ 1) :
    ∃ e, topologyCheck cfg = Except.error e := by
  obtain ⟨e, he⟩ := scanListeners_error_of_badPurpose ⟨"", false, false⟩ cfg.listeners hl hlen
  exact ⟨e, by simp [topologyCheck, he]⟩

lemma runValidate_ok_inv {nm : NetModel} {ext : Ext} {cfg : Config} {acc : ScanAcc}
    {cs : List String} (h : runValidate nm ext cfg = Except.ok (acc, cs)) :
    topologyCheck cfg = Except.ok acc ∧
    upstreamsStage nm acc cfg = Except.ok cs ∧
    ext.setupListenersOk = true ∧
    (cfg.controller.isSome = true →
      checkClusterListeners nm (pubClusterAddr cfg) cfg.listeners = Except.ok ()) := by
  unfold runValidate at h
  cases h1 : topologyCheck cfg with
  | error e => rw [h1] at h; exact absurd h (by simp)
  | ok acc2 =>
  rw [h1] at h
  dsimp only at h
  cases h2 : upstreamsStage nm acc2 cfg with
  | error e => rw [h2] at h; exact absurd h (by simp)
  | ok cs2 =>
  rw [h2] at h
  dsimp only at h
  by_cases hC : cfg.controller.isSome = true
  · rw [if_pos hC] at h
    cases h3 : checkClusterListeners nm (pubClusterAddr cfg) cfg.listeners with
    | error e =>
        rw [h3] at h
        dsimp only at h
        split_ifs at h <;> exact absurd h (by simp)
    | ok u =>
        rw [h3] at h
        dsimp only at h
        split_ifs at h with hA hB hD <;> simp at h
        obtain ⟨rfl, rfl⟩ : acc2 = acc ∧ cs2 = cs := h
        exact ⟨rfl, h2, by simpa using hA, fun _ => by cases u; rfl⟩
  · rw [if_neg hC] at h
    dsimp only at h
    split_ifs at h with hA hB hD <;> simp at h
    obtain ⟨rfl, rfl⟩ : acc2 = acc ∧ cs2 = cs := h
    exact ⟨rfl, h2, by simpa using hA, fun hcc => absurd hcc hC⟩

lemma runValidateExit_of_not_ok {nm : NetModel} {ext : Ext} {cfg : Config}
    (h : ∀ p, runValidate nm ext cfg ≠ Except.ok p) :
    runValidateExit nm ext cfg = some 1 := by
  unfold runValidateExit
  cases hr : runValidate nm ext cfg with
  | error e => rfl
  | ok p => exact absurd hr (h p)

lemma runValidateExit_of_topology_error {nm : NetModel} {ext : Ext} {cfg : Config} {e : RunErr}
    (h : topologyCheck cfg = Except.error e) : runValidateExit nm ext cfg = some 1 := by
  simp [runValidateExit, runValidate, h]

lemma combinedControllersCheck_ok_iff (nm : NetModel) (ca pa : String) (cs : List String) :
    (∃ cs2, combinedControllersCheck nm ca pa cs = Except.ok cs2) ↔
      (cs = [] ∨ ∃ a, cs = [a] ∧
        (a = ca ∨ (pa ≠ "" ∧ a = pa) ∨ upstreamIsDnsName nm a = true)) := by
  rcases cs with _ | ⟨a, _ | ⟨b, t⟩⟩
  · simp [combinedControllersCheck]
  · constructor
    · rintro ⟨cs2, h⟩
      simp only [combinedControllersCheck] at h
      split_ifs at h with h1 h2 h3
      · exact Or.inr ⟨a, rfl, Or.inl h1⟩
      · exact Or.inr ⟨a, rfl, Or.inr (Or.inl h2)⟩
      · exact Or.inr ⟨a, rfl, Or.inr (Or.inr h3)⟩
    · rintro (h | ⟨x, hx, hacc⟩)
      · exact absurd h (by simp)
      · obtain rfl : x = a := by simpa using hx.symm
        refine ⟨[x], ?_⟩
        simp only [combinedControllersCheck]
        split_ifs with h1 h2 h3
        · rfl
        · rfl
        · rfl
        · rcases hacc with hc | hc | hc
          · exact absurd hc h1
          · exact absurd hc h2
          · exact absurd hc h3
  · constructor
    · rintro ⟨cs2, h⟩
      exact absurd h (by simp [combinedControllersCheck])
    · rintro (h | ⟨x, hx, _⟩)
      · exact absurd h (by simp)
      · exact absurd hx (by simp)

lemma combinedControllersCheck_ok_shape {nm : NetModel} {ca pa : String}
    {cs cs2 : List String} (h : combinedControllersCheck nm ca pa cs = Except.ok cs2) :
    (cs = [] ∧ cs2 = [if pa = "" then ca else pa]) ∨ (∃ a, cs = [a] ∧ cs2 = [a]) := by
  rcases cs with _ | ⟨a, _ | ⟨b, t⟩⟩
  · simp only [combinedControllersCheck] at h
    exact Or.inl ⟨rfl, by simpa using h.symm⟩
  · simp only [combinedControllersCheck] at h
    split_ifs at h <;> first
      | exact Or.inr ⟨a, rfl, by simpa using h.symm⟩
      | exact absurd h (by simp)
  · exact absurd h (by simp [combinedControllersCheck])

lemma upstreamsStage_ok_inv {nm : NetModel} {acc : ScanAcc} {cfg : Config}
    {w : WorkerCfg} {cs : List String}
    (hw : cfg.worker = some w) (h : upstreamsStage nm acc cfg = Except.ok cs) :
    checkUpstreamList nm cs = Except.ok () ∧
      (∀ ctl, cfg.controller = some ctl →
        combinedControllersCheck nm acc.clusterAddr ctl.publicClusterAddr w.controllers =
          Except.ok cs) ∧
      (cfg.controller = none → cs = w.controllers) := by
  unfold upstreamsStage at h
  rw [hw] at h
  dsimp only at h
  cases hco : cfg.controller with
  | none =>
      rw [hco] at h
      dsimp only at h
      cases hl : checkUpstreamList nm w.controllers with
      | error e => rw [hl] at h; exact absurd h (by simp)
      | ok u =>
          rw [hl] at h
          dsimp only at h
          obtain rfl : w.controllers = cs := by simpa using h
          refine ⟨by cases u; exact hl, ?_, fun _ => rfl⟩
          intro ctl hctl
          exact absurd hctl (by simp)
  | some ctl =>
      rw [hco] at h
      dsimp only at h
      cases hcc : combinedControllersCheck nm acc.clusterAddr ctl.publicClusterAddr w.controllers with
      | error e => rw [hcc] at h; exact absurd h (by simp)
      | ok cs0 =>
          rw [hcc] at h
          dsimp only at h
          cases hl : checkUpstreamList nm cs0 with
          | error e => rw [hl] at h; exact absurd h (by simp)
          | ok u =>
              rw [hl] at h
              dsimp only at h
              obtain rfl : cs0 = cs := by simpa using h
              refine ⟨by cases u; exact hl, ?_, fun hnone => absurd hnone (by simp)⟩
              intro ctl2 hctl2
              obtain rfl : ctl = ctl2 := by simpa using hctl2
              exact hcc

lemma checkUpstreamEntry_error_of_bad {nm : NetModel} {a h : String} {ip : IPProps}
    (hh : hostOfAddr nm a = some h) (hip : nm.parseIP h = some ip)
    (hbad : ip.isUnspecified = true ∨ ip.isMulticast = true) :
    ∃ e, checkUpstreamEntry nm a = Except.error e := by
  unfold checkUpstreamEntry
  rw [hh]
  dsimp only
  rw [hip]
  dsimp only
  split_ifs with g1 g2
  · exact ⟨_, rfl⟩
  · exact ⟨_, rfl⟩
  · rcases hbad with hb | hb
    · exact absurd hb g1
    · exact absurd hb g2

lemma checkUpstreamList_not_ok {nm : NetModel} {a : String}
    (hbad : ∃ e, checkUpstreamEntry nm a = Except.error e) :
    ∀ cs, a ∈ cs → ∀ u, checkUpstreamList nm cs ≠ Except.ok u := by
  intro cs
  induction cs with
  | nil => intro ha; cases ha
  | cons x rest ih =>
      intro ha u
      unfold checkUpstreamList
      cases hx : checkUpstreamEntry nm x with
      | error e => simp
      | ok v =>
          dsimp only
          rcases List.mem_cons.mp ha with rfl | hmem
          · obtain ⟨e, he⟩ := hbad
            rw [he] at hx
            cases hx
          · exact ih hmem u

lemma checkUpstreamList_ok_of_good {nm : NetModel} :
    ∀ cs : List String,
      (∀ a ∈ cs, ∃ h, hostOfAddr nm a = some h ∧
        (nm.parseIP h = none ∨
          ∃ ip, nm.parseIP h = some ip ∧ ip.isUnspecified = false ∧ ip.isMulticast = false)) →
      checkUpstreamList nm cs = Except.ok () := by
  intro cs
  induction cs with
  | nil => intro _; rfl
  | cons x rest ih =>
      intro hg
      obtain ⟨h, hh, hgood⟩ := hg x (List.mem_cons_self x rest)
      have hx : checkUpstreamEntry nm x = Except.ok () := by
        unfold checkUpstreamEntry
        rw [hh]
        dsimp only
        rcases hgood with hnone | ⟨ip, hip, hu, hm⟩
        · rw [hnone]
        · rw [hip]
          dsimp only
          rw [if_neg (by simp [hu]), if_neg (by simp [hm])]
      unfold checkUpstreamList
      rw [hx]
      dsimp only
      exact ih (fun a hamem => hg a (List.mem_cons_of_mem x hamem))

lemma checkClusterPurpose_error_unspec {nm : NetModel} {pub addr h : String} {ip : IPProps}
    (hh : hostOfAddr nm addr = some h) (hip : nm.parseIP h = some ip)
    (hun : ip.isUnspecified = true) (hpub : pub = "") :
    checkClusterPurpose nm pub addr "cluster" =
      Except.error RunErr.clusterUnspecifiedNeedsPublic := by
  unfold hostOfAddr at hh
  unfold checkClusterPurpose
  rw [if_pos rfl]
  cases hsp : nm.splitHostPort addr with
  | ok h2 p =>
      rw [hsp] at hh
      obtain rfl : h2 = h := by simpa using hh
      dsimp only
      rw [hip]
      dsimp only
      rw [if_pos ⟨hun, hpub⟩]
  | missingPort =>
      rw [hsp] at hh
      obtain rfl : addr = h := by simpa using hh
      dsimp only
      rw [hip]
      dsimp only
      rw [if_pos ⟨hun, hpub⟩]
  | otherErr m =>
      rw [hsp] at hh
      cases hh

lemma checkClusterPurposes_not_ok {nm : NetModel} {pub addr p : String}
    (hp : ∃ e, checkClusterPurpose nm pub addr p = Except.error e) :
    ∀ ps, p ∈ ps → ∀ u, checkClusterPurposes nm pub addr ps ≠ Except.ok u := by
  intro ps
  induction ps with
  | nil => intro hmem; cases hmem
  | cons x rest ih =>
      intro hmem u
      unfold checkClusterPurposes
      cases hx : checkClusterPurpose nm pub addr x with
      | error e => simp
      | ok v =>
          dsimp only
          rcases List.mem_cons.mp hmem with rfl | hmem2
          · obtain ⟨e, he⟩ := hp
            rw [he] at hx
            cases hx
          · exact ih hmem2 u

lemma checkClusterListeners_not_ok {nm : NetModel} {pub : String} {l : Listener}
    (hl : ∀ u, checkClusterPurposes nm pub l.address l.purpose ≠ Except.ok u) :
    ∀ ls, l ∈ ls → ∀ u, checkClusterListeners nm pub ls ≠ Except.ok u := by
  intro ls
  induction ls with
  | nil => intro hmem; cases hmem
  | cons x rest ih =>
      intro hmem u
      unfold checkClusterListeners
      cases hx : checkClusterPurposes nm pub x.address x.purpose with
      | error e => simp
      | ok v =>
          dsimp only
          rcases List.mem_cons.mp hmem with rfl | hmem2
          · exact absurd hx (hl v)
          · exact ih hmem2 u

lemma listenerErrorsOf_foldl (fs : List (Option (Except String Unit))) :
    ∀ es : List String,
      fs.foldl (fun es f =>
        match f with
        | some (Except.error e) => es ++ [e]
        | _ => es) es = es ++ listenerErrorsOf fs := by
  induction fs with
  | nil => intro es; simp [listenerErrorsOf]
  | cons f rest ih =>
      intro es
      rcases f with _ | ⟨fv⟩
      · simpa [listenerErrorsOf] using ih es
      · rcases fv with e | u
        · simp only [List.foldl_cons]
          rw [ih (es ++ [e])]
          simp [listenerErrorsOf]
        · simpa [listenerErrorsOf] using ih es

lemma reloadListenerErrors_eq (funcs : List (String × List (Option (Except String Unit)))) :
    reloadListenerErrors funcs = funcs.flatMap (fun kf =>
      if "listener|".data.isPrefixOf kf.1.data then listenerErrorsOf kf.2 else []) := by
  unfold reloadListenerErrors
  suffices hgen : ∀ es : List String,
      funcs.foldl (fun errs kf =>
        if "listener|".data.isPrefixOf kf.1.data then
          errs ++ kf.2.foldl (fun es f =>
            match f with
            | some (Except.error e) => es ++ [e]
            | _ => es) []
        else errs) es =
      es ++ funcs.flatMap (fun kf =>
        if "listener|".data.isPrefixOf kf.1.data then listenerErrorsOf kf.2 else []) by
    simpa using hgen []
  induction funcs with
  | nil => intro es; simp
  | cons kf rest ih =>
      intro es
      by_cases hk : "listener|".data.isPrefixOf kf.1.data
      · simp only [List.foldl_cons, List.flatMap_cons, if_pos hk]
        rw [listenerErrorsOf_foldl kf.2 [], ih]
        simp
      · simp only [List.foldl_cons, List.flatMap_cons, if_neg hk]
        rw [ih]
        simp

lemma toLowerStr_eq_empty_iff (s : String) : toLowerStr s = "" ↔ s = "" := by
  cases s with
  | mk l => simp [toLowerStr, String.ext_iff]

lemma parseLogLevel_eq_claim (s : String) :
    parseLogLevel s =
      (if trimStr s = "" then some HLevel.info else claimLevelMatch (trimStr s)) := by
  by_cases h : trimStr s = ""
  · rw [if_pos h]
    unfold parseLogLevel
    rw [h]
    decide
  · rw [if_neg h]
    unfold parseLogLevel claimLevelMatch
    have ht : ¬toLowerStr (trimStr s) = "" := fun hc => h ((toLowerStr_eq_empty_iff _).mp hc)
    dsimp only
    split_ifs <;> first | rfl | tauto

/-- C2: In every iteration of the schema-manager liveness loop where the root
context is not yet cancelled and the ping fails, exactly one recovery attempt
is performed (construct a new manager, then acquire a fresh shared lock); if
the recovery succeeds the loop continues, and if either step fails the loop
invokes the supervisor's global cancel and returns; no other path in the loop
invokes the cancel. -/
theorem ensureManagerConnection_single_recovery (t : LivenessTick) :
    ((ensureManagerConnectionStep t).recoveryAttempts =
      if t.pingOk = false ∧ t.ctxDone = false then 1 else 0) ∧
    ((t.pingOk = false ∧ t.ctxDone = false ∧ t.newManagerOk = true ∧ t.relockOk = true) →
      (ensureManagerConnectionStep t).outcome = LivenessOutcome.keepLooping ∧
      (ensureManagerConnectionStep t).cancelled = false) ∧
    ((t.pingOk = false ∧ t.ctxDone = false ∧ (t.newManagerOk = false ∨ t.relockOk = false)) →
      (ensureManagerConnectionStep t).outcome = LivenessOutcome.cancelAndReturn ∧
      (ensureManagerConnectionStep t).cancelled = true) ∧
    ((ensureManagerConnectionStep t).cancelled = true ↔
      (t.pingOk = false ∧ t.ctxDone = false ∧ (t.newManagerOk = false ∨ t.relockOk = false))) := by
  rcases t with ⟨p, c, n, r, s⟩
  cases p <;> cases c <;> cases n <;> cases r <;> cases s <;> decide

theorem ensureManagerConnection_single_recovery_witness :
    (ensureManagerConnectionStep ⟨false, false, true, false, false⟩).outcome =
        LivenessOutcome.cancelAndReturn ∧
      (ensureManagerConnectionStep ⟨false, false, true, false, false⟩).cancelled = true :=
  (ensureManagerConnection_single_recovery ⟨false, false, true, false, false⟩).2.2.1
    (by decide)

/-- C3: When the root context is cancelled in the dispatch loop, the worker
(when a worker block is configured) is shut down strictly before the
controller (when a controller block is configured), the controller's
Shutdown receives waitForWorker equal to whether a worker block is
configured, the loop exits, and WaitForInterrupt returns 0. -/
theorem waitForInterrupt_ctxDone_order (hw hc : Bool) :
    (ctxDoneDispatch hw hc).returnCode = 0 ∧
    (ctxDoneDispatch hw hc).shutdownTriggered = true ∧
    (hw = true → SrvAction.shutdownWorker false ∈ (ctxDoneDispatch hw hc).actions) ∧
    (hc = true → SrvAction.shutdownController hw ∈ (ctxDoneDispatch hw hc).actions) ∧
    (∀ wf, SrvAction.shutdownController wf ∈ (ctxDoneDispatch hw hc).actions → wf = hw) ∧
    (∀ (i j : Nat) (d wf : Bool),
      (ctxDoneDispatch hw hc).actions[i]? = some (SrvAction.shutdownWorker d) →
      (ctxDoneDispatch hw hc).actions[j]? = some (SrvAction.shutdownController wf) →
      i < j) := by
  cases hw <;> cases hc <;>
    refine ⟨by decide, by decide, by decide, by decide, by decide, ?_⟩ <;>
    intro i j d wf hi hj <;>
    rcases i with _ | _ | i <;> rcases j with _ | _ | j <;>
    simp_all [ctxDoneDispatch]

theorem waitForInterrupt_ctxDone_order_witness :
    SrvAction.shutdownWorker false ∈ (ctxDoneDispatch true true).actions ∧
    SrvAction.shutdownController true ∈ (ctxDoneDispatch true true).actions ∧
    (0 : Nat) < 1 :=
  ⟨(waitForInterrupt_ctxDone_order true true).2.2.1 rfl,
   (waitForInterrupt_ctxDone_order true true).2.2.2.1 rfl,
   (waitForInterrupt_ctxDone_order true true).2.2.2.2.2 0 1 false true
     (by decide) (by decide)⟩

/-- C4: After the shared advisory lock is acquired, connectSchemaManager
returns the not-initialized error when initialization has not started,
otherwise the dirty-state error when the state is dirty, otherwise the
must-migrate error when the binary schema version exceeds the database
schema version, otherwise the binary-too-old error naming the newer database
version when the binary version is older; the check passes exactly when the
versions are equal, and every such error surfaces from Run as exit code 1. -/
theorem connectSchemaManager_version_gate (st : SchemaState) :
    (connectSchemaManager true true true st = checkSchemaState st) ∧
    (st.initializationStarted = false →
      checkSchemaState st = Except.error SchemaErr.notInitialized) ∧
    (st.initializationStarted = true → st.dirty = true →
      checkSchemaState st = Except.error SchemaErr.dirtyState) ∧
    (st.initializationStarted = true → st.dirty = false →
      st.databaseSchemaVersion < st.binarySchemaVersion →
      checkSchemaState st = Except.error SchemaErr.mustMigrate) ∧
    (st.initializationStarted = true → st.dirty = false →
      st.binarySchemaVersion < st.databaseSchemaVersion →
      checkSchemaState st = Except.error (SchemaErr.binaryTooOld st.databaseSchemaVersion)) ∧
    (st.initializationStarted = true → st.dirty = false →
      (checkSchemaState st = Except.ok () ↔
        st.binarySchemaVersion = st.databaseSchemaVersion)) ∧
    (∀ e, checkSchemaState st = Except.error e →
      runSchemaGate true true true st = Except.error 1) := by
  refine ⟨rfl, ?_, ?_, ?_, ?_, ?_, ?_⟩
  · intro h1
    simp [checkSchemaState, h1]
  · intro h1 h2
    simp [checkSchemaState, h1, h2]
  · intro h1 h2 h3
    simp [checkSchemaState, h1, h2, h3, Nat.lt_asymm h3]
  · intro h1 h2 h3
    simp [checkSchemaState, h1, h2, h3, Nat.lt_asymm h3]
  · intro h1 h2
    simp only [checkSchemaState, h1, h2]
    norm_num
    split_ifs with g1 g2 <;> simp <;> omega
  · intro e he
    simp [runSchemaGate, connectSchemaManager, he]

theorem connectSchemaManager_version_gate_witness :
    checkSchemaState ⟨true, false, 5, 3⟩ = Except.error SchemaErr.mustMigrate ∧
    runSchemaGate true true true ⟨true, false, 5, 3⟩ = Except.error 1 :=
  ⟨(connectSchemaManager_version_gate ⟨true, false, 5, 3⟩).2.2.2.1 rfl rfl (by decide),
   (connectSchemaManager_version_gate ⟨true, false, 5, 3⟩).2.2.2.2.2.2 SchemaErr.mustMigrate
     ((connectSchemaManager_version_gate ⟨true, false, 5, 3⟩).2.2.2.1 rfl rfl (by decide))⟩

/-- C7 counterexample: in the Run step sequence of a combined config, the
PID file is stored strictly before the database URL parse, the database
connection, the schema-guard attach, and the KMS root-key verification —
not after them as the claim states. -/
theorem run_pid_before_database_counterexample :
    RunEvent.storePidFile ∈ runHappyTrace true true ∧
    RunEvent.parseDbUrl ∈ runHappyTrace true true ∧
    RunEvent.connectDb ∈ runHappyTrace true true ∧
    RunEvent.connectSchemaManagerEv ∈ runHappyTrace true true ∧
    RunEvent.verifyKmsSetup ∈ runHappyTrace true true ∧
    (runHappyTrace true true).indexOf RunEvent.storePidFile <
      (runHappyTrace true true).indexOf RunEvent.parseDbUrl ∧
    ¬((runHappyTrace true true).indexOf RunEvent.connectDb <
      (runHappyTrace true true).indexOf RunEvent.storePidFile) := by
  decide

/-- C7 (amended): with a controller block configured, Run parses the
database URL, connects to the database, attaches the schema guard, and
verifies the global-scope root KMS key, in that order, all strictly AFTER
writing the PID file (and before starting the subsystems). -/
theorem run_pid_before_database (hw : Bool) :
    RunEvent.storePidFile ∈ runHappyTrace true hw ∧
    RunEvent.verifyKmsSetup ∈ runHappyTrace true hw ∧
    (runHappyTrace true hw).indexOf RunEvent.storePidFile <
      (runHappyTrace true hw).indexOf RunEvent.parseDbUrl ∧
    (runHappyTrace true hw).indexOf RunEvent.parseDbUrl <
      (runHappyTrace true hw).indexOf RunEvent.connectDb ∧
    (runHappyTrace true hw).indexOf RunEvent.connectDb <
      (runHappyTrace true hw).indexOf RunEvent.connectSchemaManagerEv ∧
    (runHappyTrace true hw).indexOf RunEvent.connectSchemaManagerEv <
      (runHappyTrace true hw).indexOf RunEvent.verifyKmsSetup ∧
    (runHappyTrace true hw).indexOf RunEvent.verifyKmsSetup <
      (runHappyTrace true hw).indexOf RunEvent.startControllerEv := by
  cases hw <;> decide

/-- C8: evaluation at the failing input. In a worker-only config whose
worker fails to start, Run still invokes controller.Shutdown on the
never-started (nil) controller before returning 1, instead of skipping the
peer rollback; in a combined config the rollback targets the started
controller as the claim describes. -/
theorem startWorker_failure_rollback_eval :
    startPhase false true true false =
      { controllerStarted := false, workerStartAttempted := true,
        controllerShutdownAttempted := true, exitCode := some 1 } ∧
    startPhase true true true false =
      { controllerStarted := true, workerStartAttempted := true,
        controllerShutdownAttempted := true, exitCode := some 1 } := by
  decide

/-- C1 counterexample: both entries of a two-element upstream list are DNS
names, so the claimed acceptance rule holds of every entry, yet Run rejects
the list (the combined-mode switch rejects every list of length two or
more) and exits 1. -/
theorem run_combined_upstreams_counterexample :
    cfgTwoDnsUpstreams.worker = some ⟨["a.example.com", "b.example.com"]⟩ ∧
    upstreamIsDnsName netSimple "a.example.com" = true ∧
    upstreamIsDnsName netSimple "b.example.com" = true ∧
    runValidate netSimple ⟨true, true, true⟩ cfgTwoDnsUpstreams =
      Except.error RunErr.combinedUpstreamMismatch ∧
    runValidateExit netSimple ⟨true, true, true⟩ cfgTwoDnsUpstreams = some 1 := by
  decide

/-- C1 (amended): in combined mode, the acceptance rule the claim states
applies only to single-entry upstream lists: a one-entry list is accepted
iff the entry equals the local cluster address, equals the nonempty public
cluster address, or parses as a DNS name; an empty list is replaced with the
default upstream and accepted; every list of two or more entries is
rejected; a rejected list makes Run exit 1. -/
theorem run_combined_upstreams_amended :
    (∀ (nm : NetModel) (ca pa : String) (cs : List String),
      (∃ cs2, combinedControllersCheck nm ca pa cs = Except.ok cs2) ↔
        (cs = [] ∨ ∃ a, cs = [a] ∧
          (a = ca ∨ (pa ≠ "" ∧ a = pa) ∨ upstreamIsDnsName nm a = true))) ∧
    (∀ (nm : NetModel) (ext : Ext) (cfg : Config) (ctl : ControllerCfg) (w : WorkerCfg)
      (acc : ScanAcc),
      cfg.controller = some ctl → cfg.worker = some w →
      topologyCheck cfg = Except.ok acc →
      (combinedControllersCheck nm acc.clusterAddr ctl.publicClusterAddr
        w.controllers).isOk = false →
      runValidateExit nm ext cfg = some 1) := by
  constructor
  · exact combinedControllersCheck_ok_iff
  · intro nm ext cfg ctl w acc hc hw htop hrej
    apply runValidateExit_of_not_ok
    rintro ⟨acc2, cs2⟩ hok
    obtain ⟨htop2, hup, _, _⟩ := runValidate_ok_inv hok
    obtain rfl : acc = acc2 := by rw [htop] at htop2; simpa using htop2
    obtain ⟨_, hcomb, _⟩ := upstreamsStage_ok_inv hw hup
    rw [hcomb ctl hc] at hrej
    simp [Except.isOk, Except.toBool] at hrej

theorem run_combined_upstreams_amended_witness :
    runValidateExit netSimple ⟨true, true, true⟩ cfgMismatchUpstream = some 1 :=
  run_combined_upstreams_amended.2 netSimple ⟨true, true, true⟩ cfgMismatchUpstream
    ⟨""⟩ ⟨["10.0.0.99:9201"]⟩ ⟨"127.0.0.1:9201", true, true⟩
    rfl rfl (by decide) (by decide)

/-- C5 counterexample: a controller config with two api listeners (and one
cluster listener) passes the listener-topology validation and the whole
validation phase, so Run does not require exactly one api listener. -/
theorem run_listener_topology_counterexample :
    cfgTwoApi.controller.isSome = true ∧
    (cfgTwoApi.listeners.filter (fun l => l.purpose = ["api"])).length = 2 ∧
    (topologyCheck cfgTwoApi).isOk = true ∧
    (runValidate netSimple ⟨true, true, true⟩ cfgTwoApi).isOk = true := by
  decide

/-- C5 (amended): Run fails with exit 1 when any listener declares zero or
more than one purpose; when a controller block is present, the topology
validation passes only if at least one api listener and at least one
cluster listener exist; when a worker block is present, only if at least
one proxy listener exists. -/
theorem run_listener_topology_amended :
    (∀ (nm : NetModel) (ext : Ext) (cfg : Config) (l : Listener),
      l ∈ cfg.listeners → l.purpose.length ≠ 1 → runValidateExit nm ext cfg = some 1) ∧
    (∀ (cfg : Config) (acc : ScanAcc), topologyCheck cfg = Except.ok acc →
      (∀ l ∈ cfg.listeners, l.purpose.length = 1) ∧
      (cfg.controller.isSome = true →
        (∃ l ∈ cfg.listeners, l.purpose = ["api"]) ∧
        (∃ l ∈ cfg.listeners, l.purpose = ["cluster"])) ∧
      (cfg.worker.isSome = true → ∃ l ∈ cfg.listeners, l.purpose = ["proxy"])) := by
  constructor
  · intro nm ext cfg l hl hlen
    obtain ⟨e, he⟩ := topologyCheck_error_of_badPurpose hl hlen
    exact runValidateExit_of_topology_error he
  · intro cfg acc htop
    obtain ⟨hs, hctl, hwrk⟩ := topologyCheck_ok_inv htop
    refine ⟨scanListeners_ok_purposes hs, ?_, ?_⟩
    · intro hc
      obtain ⟨hapi, hclu⟩ := hctl hc
      constructor
      · rcases scanListeners_foundApi hs hapi with hinit | hex
        · cases hinit
        · exact hex
      · rcases scanListeners_clusterAddr hs hclu with hinit | hex
        · exact absurd rfl hinit
        · exact hex
    · intro hw
      rcases scanListeners_foundProxy hs (hwrk hw) with hinit | hex
      · cases hinit
      · exact hex

theorem run_listener_topology_amended_witness :
    runValidateExit netSimple ⟨true, true, true⟩ cfgNoPurpose = some 1 :=
  run_listener_topology_amended.1 netSimple ⟨true, true, true⟩ cfgNoPurpose
    ⟨[], "127.0.0.1:9200"⟩ (by decide) (by decide)

/-- C9: with a controller block present, if any cluster-purpose listener's
address (after stripping an optional port) parses as an unspecified IP while
public_cluster_addr is empty, the validation phase of Run fails with exit
code 1. -/
theorem run_cluster_unspecified_requires_public (nm : NetModel) (ext : Ext) (cfg : Config)
    (ctl : ControllerCfg) (l : Listener) (h : String) (ip : IPProps)
    (hc : cfg.controller = some ctl) (hpub : ctl.publicClusterAddr = "")
    (hl : l ∈ cfg.listeners) (hp : "cluster" ∈ l.purpose)
    (hh : hostOfAddr nm l.address = some h) (hip : nm.parseIP h = some ip)
    (hun : ip.isUnspecified = true) :
    runValidateExit nm ext cfg = some 1 := by
  apply runValidateExit_of_not_ok
  rintro ⟨acc, cs⟩ hok
  obtain ⟨_, _, _, hclu⟩ := runValidate_ok_inv hok
  have hcl := hclu (by rw [hc]; rfl)
  have hpub2 : pubClusterAddr cfg = "" := by simp [pubClusterAddr, hc, hpub]
  have herr := @checkClusterPurpose_error_unspec nm (pubClusterAddr cfg) l.address h ip hh hip hun hpub2
  have hpsNotOk : ∀ u, checkClusterPurposes nm (pubClusterAddr cfg) l.address l.purpose ≠
      Except.ok u :=
    checkClusterPurposes_not_ok ⟨_, herr⟩ l.purpose hp
  exact checkClusterListeners_not_ok hpsNotOk cfg.listeners hl () hcl

theorem run_cluster_unspecified_requires_public_witness :
    runValidateExit netSimple ⟨true, true, true⟩ cfgUnspecCluster = some 1 :=
  run_cluster_unspecified_requires_public netSimple ⟨true, true, true⟩ cfgUnspecCluster
    ⟨""⟩ ⟨["cluster"], "0.0.0.0:9201"⟩ "0.0.0.0" ⟨true, false⟩
    rfl rfl (by decide) (by decide) (by decide) (by decide) (by decide)

/-- C10: with a worker block present (any role combination), the validation
phase of Run exits 1 when any entry of the worker upstream list, after
stripping an optional port, parses as an unspecified or multicast IP; a
list whose entries are all DNS names or other IPs passes the per-entry
address check. -/
theorem run_worker_upstream_ip_check :
    (∀ (nm : NetModel) (ext : Ext) (cfg : Config) (w : WorkerCfg) (a h : String)
      (ip : IPProps),
      cfg.worker = some w → a ∈ w.controllers →
      hostOfAddr nm a = some h → nm.parseIP h = some ip →
      (ip.isUnspecified = true ∨ ip.isMulticast = true) →
      runValidateExit nm ext cfg = some 1) ∧
    (∀ (nm : NetModel) (cs : List String),
      (∀ a ∈ cs, ∃ h, hostOfAddr nm a = some h ∧
        (nm.parseIP h = none ∨ ∃ ip, nm.parseIP h = some ip ∧
          ip.isUnspecified = false ∧ ip.isMulticast = false)) →
      checkUpstreamList nm cs = Except.ok ()) := by
  constructor
  · intro nm ext cfg w a h ip hw ha hh hip hbadip
    apply runValidateExit_of_not_ok
    rintro ⟨acc, cs⟩ hok
    obtain ⟨htop, hup, _, _⟩ := runValidate_ok_inv hok
    obtain ⟨hlist, hcomb, hplain⟩ := upstreamsStage_ok_inv hw hup
    have hbad := checkUpstreamEntry_error_of_bad hh hip hbadip
    cases hco : cfg.controller with
    | none =>
        have hcs : cs = w.controllers := hplain hco
        exact checkUpstreamList_not_ok hbad cs (hcs ▸ ha) () hlist
    | some ctl =>
        have hcc := hcomb ctl hco
        rcases combinedControllersCheck_ok_shape hcc with ⟨hnil, _⟩ | ⟨x, hx, hcs⟩
        · rw [hnil] at ha
          cases ha
        · rw [hx] at ha
          have hax : a = x := by simpa using ha
          rw [hcs] at hlist
          exact checkUpstreamList_not_ok hbad [x] (by simp [hax]) () hlist
  · intro nm cs hgood
    exact checkUpstreamList_ok_of_good cs hgood

theorem run_worker_upstream_ip_check_witness :
    runValidateExit netSimple ⟨true, true, true⟩ cfgMulticastUpstream = some 1 :=
  run_worker_upstream_ip_check.1 netSimple ⟨true, true, true⟩ cfgMulticastUpstream
    ⟨["224.0.0.1:9201"]⟩ "224.0.0.1:9201" "224.0.0.1" ⟨false, true⟩
    rfl (by decide) (by decide) (by decide) (by decide)

/-- C6 counterexample: the whitespace-only level string matches none of the
claim's table entries case-insensitively, so by the claim it would be logged
as unknown and ignored; the code instead trims it to the empty string and
installs level info without logging an unknown level. -/
theorem reload_log_level_counterexample :
    envWhitespaceLevel.logLevel ≠ "" ∧
    claimLevelMatch envWhitespaceLevel.logLevel = none ∧
    parseLogLevel envWhitespaceLevel.logLevel = some HLevel.info ∧
    (sighupDispatch envWhitespaceLevel).levelSet = some HLevel.info ∧
    (sighupDispatch envWhitespaceLevel).unknownLevelLogged = false := by
  decide

/-- C6 (amended): on SIGHUP with a parseable config carrying a nonempty log
level, the level is first whitespace-trimmed, then matched
case-insensitively against trace, debug, notice/info (both info),
warn/warning, err/error, with a level that trims to empty mapping to info;
a recognized level is installed, an unrecognized one is logged and ignored
without terminating; the listener-prefixed reload functions then run with
their errors aggregated in order while the dispatch loop keeps running. -/
theorem reload_log_level_amended :
    (∀ s, parseLogLevel s =
      (if trimStr s = "" then some HLevel.info else claimLevelMatch (trimStr s))) ∧
    (∀ e : SighupEnv, e.flagConfigEmpty = false → e.loadOk = true → e.confFound = true →
      e.logLevel ≠ "" →
      (sighupDispatch e).levelSet = parseLogLevel e.logLevel ∧
      ((sighupDispatch e).unknownLevelLogged = true ↔ parseLogLevel e.logLevel = none) ∧
      (sighupDispatch e).shutdownTriggered = false) ∧
    (∀ e : SighupEnv, (sighupDispatch e).reloadErrors =
      e.reloadFuncs.flatMap (fun kf =>
        if "listener|".data.isPrefixOf kf.1.data then listenerErrorsOf kf.2 else [])) := by
  refine ⟨parseLogLevel_eq_claim, ?_, ?_⟩
  · intro e h1 h2 h3 h4
    cases hpl : parseLogLevel e.logLevel <;>
      simp [sighupDispatch, h1, h2, h3, h4, hpl]
  · intro e
    exact reloadListenerErrors_eq e.reloadFuncs

theorem reload_log_level_amended_witness :
    (sighupDispatch envDebugLevel).levelSet = parseLogLevel "DEBUG" ∧
    (sighupDispatch envDebugLevel).shutdownTriggered = false :=
  ⟨(reload_log_level_amended.2.1 envDebugLevel rfl rfl rfl (by decide)).1,
   (reload_log_level_amended.2.1 envDebugLevel rfl rfl rfl (by decide)).2.2⟩

end BoundaryServer
